import Mathlib

/-!
Verification development for the Cloudflare Gateway blocking-page worker
(`src/index.js`).  The JavaScript functions are shallowly embedded as Lean
definitions: strings stay strings, string-or-null values become
`Option String`, the KV cache and the remote `fetch` become explicit
oracles supplied as arguments, and code that can throw returns
`Option`/`Except`.  Host builtins whose semantics live outside the
program (`Date`, `decodeURIComponent`, `encodeURIComponent`,
`crypto.randomUUID`) are passed in as oracle parameters.
-/

deriving instance DecidableEq for Except

namespace GatewayWorker

/-- JavaScript truthiness of a string-or-null value: `null`, `undefined`
and the empty string are falsy, every other string is truthy. -/
def jsTruthy : Option String → Bool
  | none => false
  | some s => s ≠ ""

/-- JavaScript `a || b` on string-or-null values: yields `a` when `a` is
truthy, otherwise `b`. -/
def jsOr (a b : Option String) : Option String :=
  if jsTruthy a then a else b

/-- Helper for substring search: does `sub` occur inside the list? -/
def hasSubList (sub : List Char) : List Char → Bool
  | [] => sub.isEmpty
  | c :: cs => sub.isPrefixOf (c :: cs) || hasSubList sub cs

/-- Models JavaScript `hay.includes(sub)` (substring containment). -/
def strIncludes (hay sub : String) : Bool :=
  hasSubList sub.toList hay.toList

/-- Replace every occurrence of the character `c` by `rep`.  Every
`.replace(/x/g, ...)` and `.split(x)` in the source uses a single-character
pattern, so these list-level helpers model them exactly (and, unlike the
library versions, evaluate by kernel reduction). -/
def replaceCharList (c : Char) (rep : List Char) : List Char → List Char
  | [] => []
  | d :: ds => if d = c then rep ++ replaceCharList c rep ds else d :: replaceCharList c rep ds

/-- Models JavaScript `s.replace(/c/g, rep)` for a one-character pattern. -/
def replaceAll (s : String) (c : Char) (rep : String) : String :=
  ⟨replaceCharList c rep.data s.data⟩

/-- Split on a one-character separator; models JavaScript `s.split(c)`
(always at least one, possibly empty, segment). -/
def splitOnChar (c : Char) : List Char → List (List Char)
  | [] => [[]]
  | d :: ds =>
    match splitOnChar c ds with
    | [] => [[d]]
    | g :: gs => if d = c then [] :: g :: gs else (d :: g) :: gs

/-- Models JavaScript `s.trim()` (whitespace stripped from both ends). -/
def jsTrim (s : String) : String :=
  ⟨((s.data.dropWhile Char.isWhitespace).reverse.dropWhile Char.isWhitespace).reverse⟩

/-- `escapeHtml` from `src/index.js` lines 252-260: sequential global
replacement of the five HTML-special characters; `!text` short-circuits
the empty string to `''`. -/
def escapeHtml (text : String) : String :=
  if text = "" then ""
  else
    replaceAll (replaceAll (replaceAll (replaceAll (replaceAll text
      '&' "&amp;") '<' "&lt;") '>' "&gt;") '\x22' "&quot;") '\x27' "&#39;"

/-- Outcome of one `fetch(url, options)` call, supplied per attempt by the
environment oracle: either the promise rejects (network/transport error)
or a response arrives with a status code and a body.  The body models
`response.json()`: `.error` when parsing rejects, `.ok name?` where
`name?` is `data.result?.name` (absent field gives `none`). -/
inductive FetchOutcome where
  | fail (msg : String)
  | resp (status : Nat) (body : Except String (Option String))
deriving DecidableEq

/-- Structured form of the errors `fetchWithRetry` can raise:
`httpExhausted attempts status` is `API request failed after N attempts:
<status>`, `httpFail status` is `API request failed: <status>`, `network`
is a rethrown fetch rejection and `badJson` a rethrown body-parse
rejection.  (The human-readable `statusText` part of the source's
messages carries no extra information and is not modelled.) -/
inductive ApiError where
  | network (msg : String)
  | httpExhausted (attempts status : Nat)
  | httpFail (status : Nat)
  | badJson (msg : String)
deriving DecidableEq

/-- Result of a `fetchWithRetry` run: the value returned or error raised,
the number of `fetch` calls made, and the list of backoff waits (in
milliseconds, in order) performed between attempts. -/
structure FetchResult where
  res : Except ApiError String
  attempts : Nat
  delays : List Nat
deriving DecidableEq

/-- The payload fallback `'Rule ' + url.split('/').pop()` used when the
parsed body has no usable name (`src/index.js` line 194). -/
def fallbackFromUrl (url : String) : String :=
  "Rule " ++ String.mk ((splitOnChar '/' url.data).getLastD [])

/-- The `try` block of one iteration of the `fetchWithRetry` loop
(`src/index.js` lines 174-195), classifying the attempt's outcome:
`.ok` with the extracted name (the resolution returned from the loop) or
`.error` with the error this iteration raises - the exhausted-retries
error for a 429/5xx status, the `API request failed` error for any other
non-ok status, or the rethrown fetch/body-parse rejection. -/
def tryBlock (url : String) (maxRetries : Nat) : FetchOutcome → Except ApiError String
  | .fail msg => .error (.network msg)
  | .resp status body =>
    if status = 429 ∨ 500 ≤ status then .error (.httpExhausted (maxRetries + 1) status)
    else if ¬ (200 ≤ status ∧ status < 300) then .error (.httpFail status)
    else
      match body with
      | .error m => .error (.badJson m)
      | .ok name? =>
        match name? with
        | some n => if n = "" then .ok (fallbackFromUrl url) else .ok n
        | none => .ok (fallbackFromUrl url)

/-- The `for (attempt = 0; attempt <= maxRetries; ...)` loop of
`fetchWithRetry` (`src/index.js` lines 170-209), with explicit fuel (the
loop runs at most `maxRetries + 1` times, so the fuel-zero branch
mirrors the unreachable `throw lastError` after the loop).  A successful
try block returns at once.  Every error a try block raises is handled
the same way, matching the source: rethrown when `attempt ===
maxRetries` (the 429/5xx branch throws the exhausted-retries error
directly in that case; every other error reaches the `catch`, which
rethrows it as `lastError`), and otherwise followed by a
`2^attempt * 1000` ms wait and the next attempt (the 429/5xx branch via
`continue`, the others via the `catch` block's wait). -/
def fetchLoop (oracle : Nat → FetchOutcome) (url : String) (maxRetries : Nat) :
    (attempt fuel : Nat) → FetchResult
  | _, 0 => ⟨.error (.network "loop exhausted"), 0, []⟩
  | attempt, fuel + 1 =>
    match tryBlock url maxRetries (oracle attempt) with
    | .ok v => ⟨.ok v, 1, []⟩
    | .error e =>
      if attempt = maxRetries then ⟨.error e, 1, []⟩
      else
        let r := fetchLoop oracle url maxRetries (attempt + 1) fuel
        ⟨r.res, r.attempts + 1, 2 ^ attempt * 1000 :: r.delays⟩

/-- `fetchWithRetry(url, options, maxRetries)` from `src/index.js`:
starts the loop at attempt 0.  (The `options` argument only carries the
auth headers, which no modelled observation depends on.) -/
def fetchWithRetry (oracle : Nat → FetchOutcome) (url : String) (maxRetries : Nat) : FetchResult :=
  fetchLoop oracle url maxRetries 0 (maxRetries + 1)

/-- Behaviour of one KV `get`: a stored string, a miss (`null`), or a
thrown error. -/
inductive CacheGetResult where
  | val (s : String)
  | missing
  | err (msg : String)
deriving DecidableEq

/-- The KV namespace bound to `env.RULE_CACHE`, as an oracle. -/
structure CacheModel where
  get : String → CacheGetResult

/-- The worker environment bag, with the source's variable names.
`CACHE_TTL` feeds only the `expirationTtl` option of the cache write,
which no claim observes. -/
structure Env where
  RULE_CACHE : Option CacheModel
  CLOUDFLARE_API_TOKEN : Option String
  CLOUDFLARE_ACCOUNT_ID : Option String
  ALLOWED_ORIGINS : Option String
  ADMIN_EMAIL : Option String
  CACHE_TTL : Option String

/-- `getCachedRuleName` (`src/index.js` lines 217-227): reads
`rule:<id>` when the KV binding exists; a thrown read error is caught
and degraded to a miss (`null`). -/
def getCachedRuleName (ruleId : String) (env : Env) : Option String :=
  match env.RULE_CACHE with
  | some c =>
    match c.get ("rule:" ++ ruleId) with
    | .val s => some s
    | .missing => none
    | .err _ => none
  | none => none

/-- Number of KV `get` calls `getCachedRuleName` performs. -/
def cacheGetCount (env : Env) : Nat :=
  if env.RULE_CACHE.isSome then 1 else 0

/-- `cacheRuleName` (`src/index.js` lines 235-245): attempts one
`put('rule:<id>', name, {expirationTtl})` when the KV binding exists;
returns the list of attempted writes.  A throwing `put` is caught and
swallowed inside this function, so nothing propagates either way; the
TTL argument (`parseInt(env.CACHE_TTL) || 3600`) is not observed by any
claim and is left out of the recorded pair. -/
def cacheRuleName (ruleId ruleName : String) (env : Env) : List (String × String) :=
  match env.RULE_CACHE with
  | some _ => [("rule:" ++ ruleId, ruleName)]
  | none => []

/-- Result of a `getRuleName` run: the display name returned plus the
observable effects (fetch attempts, backoff waits, KV reads, KV write
attempts). -/
structure RuleNameResult where
  name : String
  fetchAttempts : Nat
  delays : List Nat
  cacheGets : Nat
  cachePuts : List (String × String)
deriving DecidableEq

/-- The Gateway API endpoint URL built in `src/index.js` line 143. -/
def apiUrl (accountId ruleId : String) : String :=
  "https://api.cloudflare.com/client/v4/accounts/" ++ accountId ++ "/gateway/rules/" ++ ruleId

/-- `getRuleName` (`src/index.js` lines 125-161).  Falsy identifier gives
`'Unknown Rule'` before the `try`; inside the `try`: a truthy cached
value is returned as-is, missing credentials give `'Rule ' + ruleId`,
otherwise `fetchWithRetry` is called with 3 retries and its result
cached.  The `catch` turns any error raised by `fetchWithRetry` (the
only throwing callee - the cache helpers catch their own errors) into
`'Rule ' + ruleId`. -/
def getRuleName (ruleId : Option String) (env : Env) (oracle : Nat → FetchOutcome) :
    RuleNameResult :=
  if jsTruthy ruleId = false then ⟨"Unknown Rule", 0, [], 0, []⟩
  else
    let rid := ruleId.getD ""
    let cached := getCachedRuleName rid env
    if jsTruthy cached then ⟨cached.getD "", 0, [], cacheGetCount env, []⟩
    else if jsTruthy env.CLOUDFLARE_API_TOKEN = false ∨
        jsTruthy env.CLOUDFLARE_ACCOUNT_ID = false then
      ⟨"Rule " ++ rid, 0, [], cacheGetCount env, []⟩
    else
      let fr := fetchWithRetry oracle (apiUrl (env.CLOUDFLARE_ACCOUNT_ID.getD "") rid) 3
      match fr.res with
      | .ok name => ⟨name, fr.attempts, fr.delays, cacheGetCount env, cacheRuleName rid name env⟩
      | .error _ => ⟨"Rule " ++ rid, fr.attempts, fr.delays, cacheGetCount env, []⟩


/-- Oracle for the host `Date` builtin: `nowISO` models
`new Date().toISOString()`, `nowLocale` models
`new Date().toLocaleString()`, and `parseLocale s` models
`new Date(s).toLocaleString()`. -/
structure TimeOracle where
  nowISO : String
  nowLocale : String
  parseLocale : String → String

/-- Return value of `generateEmailContent`. -/
structure EmailContent where
  subject : String
  body : String
  adminEmail : String
deriving DecidableEq

/-- `generateEmailContent` (`src/index.js` lines 272-310), the contact
form text.  `blockedUrl` receives the already-escaped `displayUrl`
string; `ruleId`, `category` and `timestamp` are the raw string-or-null
request values. -/
def generateEmailContent (adminEmail ruleName : String) (ruleId : Option String)
    (blockedUrl : String) (category timestamp : Option String) (time : TimeOracle) :
    EmailContent :=
  let subject := "Security Policy Review Request - Access Blocked"
  let body :=
    "Hello,

I was blocked from accessing a resource and would like to request a review of this security policy action.

========================================
INCIDENT DETAILS
========================================

BLOCKED RESOURCE:
" ++ (if blockedUrl ≠ "" then blockedUrl else "Not specified")
    ++ "

SECURITY RULE:
Rule Name: " ++ ruleName
    ++ "
Rule ID: " ++ (if jsTruthy ruleId then ruleId.getD "" else "Not specified")
    ++ (if jsTruthy category then "
Category: " ++ category.getD "" else "")
    ++ "

INCIDENT TIME:
" ++ (if jsTruthy timestamp then time.parseLocale (timestamp.getD "") else time.nowLocale)
    ++ "

========================================
REQUEST FOR REVIEW
========================================

I believe this block may have occurred in error. If this is a legitimate business resource that I need access to, please consider:

1. Reviewing the security policy configuration
2. Adding an exception if appropriate
3. Providing guidance on alternative access methods

Please let me know if you need any additional information to process this request.

Thank you for your assistance,
" ++ (if strIncludes adminEmail "macharpe.com" then "Team Member" else "User")
  ⟨subject, body, adminEmail⟩

/-- The template literal of `generateBlockingPage` (`src/index.js`
lines 329-700, including the trailing `.trim()`), transcribed chunk by
chunk with its interpolations; braces, quotes, apostrophes and backticks
of the source text appear as their escape codes.  `displayUrl`,
`displayCategory` and `emailContent` are the values computed by
`generateBlockingPage` before the template is evaluated; `enc` models
the host `encodeURIComponent` builtin (applied only to the fixed ASCII
subject, where it cannot throw). -/
def blockingPageHtml (ruleName : String) (ruleId blockedUrl category timestamp : Option String)
    (nonce : String) (time : TimeOracle) (enc : String → String)
    (displayUrl displayCategory : String) (emailContent : EmailContent) : String :=
  jsTrim (("
<!DOCTYPE html>
<html lang=\"en\">
<head>
    <meta charset=\"UTF-8\">
    <meta name=\"viewport\" content=\"width=device-width, initial-scale=1.0\">
    <title>Access Blocked</title>
    <style nonce=\""
    ++ nonce
    ++ "\">
        * \x7b
            margin: 0;
            padding: 0;
            box-sizing: border-box;
        \x7d
        
        body \x7b
            font-family: -apple-system, BlinkMacSystemFont, \x27Segoe UI\x27, Roboto, Oxygen, Ubuntu, Cantarell, sans-serif;
            background: linear-gradient(135deg, #667eea 0%, #764ba2 100%);
            min-height: 100vh;
            display: flex;
            align-items: center;
            justify-content: center;
            color: #333;
            line-height: 1.6;
        \x7d
        
        .container \x7b
            background: white;
            border-radius: 12px;
            box-shadow: 0 20px 40px rgba(0, 0, 0, 0.1);
            max-width: 600px;
            margin: 20px;
            overflow: hidden;
        \x7d
        
        .header \x7b
            background: #ff6b6b;
            color: white;
            padding: 30px;
            text-align: center;
        \x7d
        
        .header h1 \x7b
            font-size: 2rem;
            margin-bottom: 10px;
        \x7d
        
        .header .icon \x7b
            font-size: 3rem;
            margin-bottom: 20px;
            display: block;
        \x7d
        
        .content \x7b
            padding: 40px 30px;
        \x7d
        
        .rule-info \x7b
            background: #f8f9fa;
            border-left: 4px solid #007bff;
            padding: 20px;
            margin: 20px 0;
            border-radius: 0 8px 8px 0;
        \x7d
        
        .rule-name \x7b
            font-weight: bold;
            color: #007bff;
            font-size: 1.1rem;
            margin-bottom: 10px;
        \x7d
        
        .details \x7b
            color: #666;
            font-size: 0.9rem;
            margin-top: 20px;
        \x7d
        
        .details div \x7b
            margin: 5px 0;
        \x7d
        
        .blocked-url \x7b
            background: #fff3cd;
            border: 1px solid #ffeaa7;
            border-radius: 6px;
            padding: 15px;
            margin: 20px 0;
            word-break: break-all;
            color: #856404;
        \x7d
        
        .actions \x7b
            margin-top: 30px;
            text-align: center;
        \x7d
        
        .btn \x7b
            background: #007bff;
            color: white;
            padding: 12px 24px;
            border: none;
            border-radius: 6px;
            text-decoration: none;
            display: inline-block;
            margin: 0 10px;
            transition: background-color 0.3s;
            cursor: pointer;
        \x7d
        
        .btn:hover \x7b
            background: #0056b3;
        \x7d
        
        .btn-secondary \x7b
            background: #6c757d;
        \x7d
        
        .btn-secondary:hover \x7b
            background: #545b62;
        \x7d
        
        .footer \x7b
            background: #f8f9fa;
            padding: 20px 30px;
            text-align: center;
            color: #666;
            font-size: 0.9rem;
            border-top: 1px solid #e9ecef;
        \x7d
        
        /* Modal styles */
        .modal \x7b
            display: none;
            position: fixed;
            z-index: 1000;
            left: 0;
            top: 0;
            width: 100%;
            height: 100%;
            background-color: rgba(0, 0, 0, 0.5);
            animation: fadeIn 0.3s;
        \x7d
        
        .modal-content \x7b
            background-color: white;
            margin: 5% auto;
            padding: 0;
            border-radius: 12px;
            width: 90%;
            max-width: 600px;
            max-height: 80vh;
            overflow-y: auto;
            box-shadow: 0 20px 40px rgba(0, 0, 0, 0.3);
            position: relative;
        \x7d
        
        .modal-header \x7b
            background: #007bff;
            color: white;
            padding: 20px 30px;
            border-radius: 12px 12px 0 0;
            border-bottom: 1px solid #e9ecef;
        \x7d
        
        .modal-header h3 \x7b
            margin: 0;
            font-size: 1.3rem;
        \x7d
        
        .close \x7b
            position: absolute;
            right: 20px;
            top: 20px;
            color: white;
            font-size: 28px;
            font-weight: bold;
            cursor: pointer;
            line-height: 1;
        \x7d
        
        .close:hover,
        .close:focus \x7b
            opacity: 0.7;
        \x7d
        
        .modal-body \x7b
            padding: 30px;
        \x7d
        
        .email-content \x7b
            background: #f8f9fa;
            border: 1px solid #e9ecef;
            border-radius: 6px;
            padding: 20px;
            font-family: \x27Courier New\x27, monospace;
            font-size: 0.9rem;
            white-space: pre-line;
            max-height: 300px;
            overflow-y: auto;
            margin: 15px 0;
        \x7d
        
        .copy-instructions \x7b
            margin: 20px 0;
            padding: 15px;
            background: #e3f2fd;
            border-left: 4px solid #2196f3;
            border-radius: 0 6px 6px 0;
        \x7d
        
        .btn-copy \x7b
            background: #28a745;
            margin-right: 10px;
        \x7d
        
        .btn-copy:hover \x7b
            background: #218838;
        \x7d
        
        .copy-success \x7b
            color: #28a745;
            font-weight: bold;
            margin-left: 10px;
            opacity: 0;
            transition: opacity 0.3s;
        \x7d
        
        @keyframes fadeIn \x7b
            from \x7b opacity: 0; \x7d
            to \x7b opacity: 1; \x7d
        \x7d
        
        @media (max-width: 600px) \x7b
            .container \x7b
                margin: 10px;
            \x7d
            
            .header, .content \x7b
                padding: 20px;
            \x7d
            
            .header h1 \x7b
                font-size: 1.5rem;
            \x7d
            
            .modal-content \x7b
                margin: 10% auto;
                width: 95%;
            \x7d
            
            .modal-header, .modal-body \x7b
                padding: 20px;
            \x7d
        \x7d
    </style>
</head>
<body>
    <div class=\"container\">
        <div class=\"header\">
            <span class=\"icon\">🛡️</span>
            <h1>Access Blocked</h1>
            <p>This request has been blocked by your organization\x27s security policy</p>
        </div>
        
        <div class=\"content\">
            <div class=\"rule-info\">
                <div class=\"rule-name\">"
    ++ escapeHtml ruleName
    ++ displayCategory
    ++ "</div>
                <p>Your request was blocked by the security rule shown above. This helps protect your organization from potentially harmful content.</p>
            </div>
            
            "
    ++ (if jsTruthy blockedUrl then "\n            <div class=\"blocked-url\">\n                <strong>Blocked URL:</strong><br>\n                " ++ displayUrl ++ "\n            </div>\n            " else "")
    ++ "
            
            <div class=\"details\">
                "
    ++ (if jsTruthy ruleId then "<div><strong>Rule ID:</strong> " ++ escapeHtml (ruleId.getD "") ++ "</div>" else "")
    ++ "
                "
    ++ (if jsTruthy category then "<div><strong>Category:</strong> " ++ category.getD "" ++ "</div>" else "")
    ++ "
                "
    ++ (if jsTruthy timestamp then "<div><strong>Time:</strong> " ++ time.parseLocale (timestamp.getD "") ++ "</div>" else "<div><strong>Time:</strong> " ++ time.nowLocale ++ "</div>")
    ++ "
            </div>
            
            <div class=\"actions\">
                <button onclick=\"openContactModal()\" class=\"btn\">Contact Administrator</button>
            </div>
        </div>
        
        <div class=\"footer\">
            If you believe this was blocked in error, please contact your IT administrator.
        </div>
    </div>
    
    <!-- Contact Modal -->
    <div id=\"contactModal\" class=\"modal\">
        <div class=\"modal-content\">
            <div class=\"modal-header\">
                <h3>Contact Administrator</h3>
                <span class=\"close\" onclick=\"closeContactModal()\">&times;</span>
            </div>
            <div class=\"modal-body\">
                <div class=\"copy-instructions\">
                    <strong>Instructions:</strong> Use \"Copy Message Body\" to copy only the message text, then compose a new email to the administrator with the provided subject line.
                </div>
                
                <div>
                    <strong>To:</strong> "
    ++ escapeHtml emailContent.adminEmail
    ++ "
                </div>
                <div style=\"margin: 10px 0;\">
                    <strong>Subject:</strong> "
    ++ escapeHtml emailContent.subject
    ++ "
                </div>
                
                <div>
                    <strong>Message:</strong>
                </div>
                <div class=\"email-content\" id=\"emailContent\">"
    ++ escapeHtml emailContent.body
    ++ "</div>
                
                <div style=\"text-align: center; margin-top: 20px;\">
                    <button onclick=\"copyEmailContent()\" class=\"btn btn-copy\">Copy Message Body</button>
                    <a href=\"mailto:"
    ++ escapeHtml emailContent.adminEmail
    ++ "?subject="
    ++ enc emailContent.subject
    ++ "\" class=\"btn btn-secondary\">Open Email Client</a>
                    <span id=\"copySuccess\" class=\"copy-success\">Message copied!</span>
                </div>
            </div>
        </div>
    </div>

    <script nonce=\""
    ++ nonce
    ++ "\">
        function openContactModal() \x7b
            document.getElementById(\x27contactModal\x27).style.display = \x27block\x27;
        \x7d
        
        function closeContactModal() \x7b
            document.getElementById(\x27contactModal\x27).style.display = \x27none\x27;
        \x7d
        
        function copyEmailContent() \x7b
            const body = \\\x60"
    ++ replaceAll (replaceAll emailContent.body '\x60' "\\\x60") '$' "\\$"
    ++ "\\\x60;
            
            navigator.clipboard.writeText(body).then(function() \x7b
                const successMsg = document.getElementById(\x27copySuccess\x27);
                successMsg.style.opacity = \x271\x27;
                setTimeout(function() \x7b
                    successMsg.style.opacity = \x270\x27;
                \x7d, 3000);
            \x7d).catch(function(err) \x7b
                // Fallback for older browsers
                const textArea = document.createElement(\x27textarea\x27);
                textArea.value = body;
                document.body.appendChild(textArea);
                textArea.select();
                document.execCommand(\x27copy\x27);
                document.body.removeChild(textArea);
                
                const successMsg = document.getElementById(\x27copySuccess\x27);
                successMsg.style.opacity = \x271\x27;
                setTimeout(function() \x7b
                    successMsg.style.opacity = \x270\x27;
                \x7d, 3000);
            \x7d);
        \x7d
        
        // Close modal when clicking outside of it
        window.onclick = function(event) \x7b
            const modal = document.getElementById(\x27contactModal\x27);
            if (event.target == modal) \x7b
                closeContactModal();
            \x7d
        \x7d
    </script>
</body>
</html>
  "))

/-- `generateBlockingPage` (`src/index.js` lines 323-701): compute the
escaped display URL (via `dec`, which models the host
`decodeURIComponent` builtin; `none` = it threw a `URIError`, which
propagates to the caller, hence the `Option` result), the escaped
category suffix, the administrator email with its default, and the
contact-form content, then evaluate the template. -/
def generateBlockingPage (ruleName : String) (ruleId blockedUrl category timestamp : Option String)
    (env : Env) (nonce : String) (time : TimeOracle)
    (dec : String → Option String) (enc : String → String) : Option String :=
  let displayUrlOpt :=
    if jsTruthy blockedUrl then (dec (blockedUrl.getD "")).map escapeHtml
    else some "the requested resource"
  match displayUrlOpt with
  | none => none
  | some displayUrl =>
    let displayCategory :=
      if jsTruthy category then " (" ++ escapeHtml (category.getD "") ++ ")" else ""
    let adminEmail :=
      if jsTruthy env.ADMIN_EMAIL then env.ADMIN_EMAIL.getD "" else "admin@example.com"
    let emailContent := generateEmailContent adminEmail ruleName ruleId displayUrl category timestamp time
    some (blockingPageHtml ruleName ruleId blockedUrl category timestamp nonce time enc
      displayUrl displayCategory emailContent)

/-- The JSON payload built by `handleJsonRequest` (`src/index.js` lines
69-76), kept structured instead of serialised. -/
structure JsonBody where
  blocked : Bool
  rule_id : Option String
  rule_name : String
  blocked_url : Option String
  category : Option String
  timestamp : String
deriving DecidableEq

/-- The response body: the fixed denial/error text, an HTML page, or a
JSON payload. -/
inductive BodyModel where
  | text (s : String)
  | page (s : String)
  | json (b : JsonBody)
deriving DecidableEq

/-- Observable outcome of a request: status, body and the
`Access-Control-Allow-Origin` header when set, plus instrumentation of
the work performed (`resolvedRuleName` is the display name the invoked
builder used, `resolverCalls` counts `getRuleName` invocations,
`builderCalls` counts response-builder invocations, and the remaining
fields aggregate the resolver's effects). -/
structure HandlerResult where
  status : Nat
  body : BodyModel
  acao : Option String
  resolvedRuleName : Option String
  resolverCalls : Nat
  builderCalls : Nat
  fetchAttempts : Nat
  delays : List Nat
  cacheGets : Nat
  cachePuts : List (String × String)
deriving DecidableEq

/-- The CORS allow-list: `env.ALLOWED_ORIGINS ?
env.ALLOWED_ORIGINS.split(',').map(o => o.trim()) : []`
(`src/index.js` line 79). -/
def allowedOriginsList (env : Env) : List String :=
  if jsTruthy env.ALLOWED_ORIGINS then
    (splitOnChar ',' (env.ALLOWED_ORIGINS.getD "").data).map (fun g => jsTrim ⟨g⟩)
  else []

/-- The `Access-Control-Allow-Origin` value computed in `src/index.js`
line 81: echo the `Origin` header when the allow-list is non-empty, the
header is truthy (present and non-empty) and the list contains it;
otherwise the literal string `'null'`. -/
def corsAllowOrigin (env : Env) (origin : Option String) : String :=
  let allowedOrigins := allowedOriginsList env
  if 0 < allowedOrigins.length ∧ jsTruthy origin = true ∧ origin.getD "" ∈ allowedOrigins then
    origin.getD ""
  else "null"

/-- `handleJsonRequest` (`src/index.js` lines 66-92): resolve the rule
name (fixed `'Unknown Rule'` for a falsy id, without touching cache or
network), build the fixed-shape payload with the current ISO timestamp,
and attach the CORS header.  `userEmail` is accepted but unused, as in
the source. -/
def handleJsonRequest (ruleId blockedUrl category userEmail : Option String) (env : Env)
    (origin : Option String) (oracle : Nat → FetchOutcome) (time : TimeOracle) : HandlerResult :=
  let rn := if jsTruthy ruleId then getRuleName ruleId env oracle else ⟨"Unknown Rule", 0, [], 0, []⟩
  let resolverCalls := if jsTruthy ruleId then 1 else 0
  let response : JsonBody := ⟨true, ruleId, rn.name, blockedUrl, category, time.nowISO⟩
  ⟨200, .json response, some (corsAllowOrigin env origin), some rn.name, resolverCalls, 1,
    rn.fetchAttempts, rn.delays, rn.cacheGets, rn.cachePuts⟩

/-- `handleHtmlRequest` (`src/index.js` lines 103-117): resolve the rule
name (fixed `'Security Policy'` for a falsy id, without touching cache
or network), derive the CSP nonce from the uuid oracle, and render the
page; a `decodeURIComponent` throw inside `generateBlockingPage`
propagates to `handleRequest`'s catch, whose 500 response is folded in
here. -/
def handleHtmlRequest (ruleId blockedUrl category timestamp userEmail : Option String)
    (env : Env) (oracle : Nat → FetchOutcome) (time : TimeOracle)
    (dec : String → Option String) (enc : String → String) (uuid : String) : HandlerResult :=
  let rn := if jsTruthy ruleId then getRuleName ruleId env oracle else ⟨"Security Policy", 0, [], 0, []⟩
  let resolverCalls := if jsTruthy ruleId then 1 else 0
  let nonce := replaceAll uuid '-' ""
  match generateBlockingPage rn.name ruleId blockedUrl category timestamp env nonce time dec enc with
  | some html =>
    ⟨200, .page html, none, some rn.name, resolverCalls, 1,
      rn.fetchAttempts, rn.delays, rn.cacheGets, rn.cachePuts⟩
  | none =>
    ⟨500, .text "Internal Server Error", none, some rn.name, resolverCalls, 1,
      rn.fetchAttempts, rn.delays, rn.cacheGets, rn.cachePuts⟩

/-- An inbound request after URL parsing: `query` is
`url.searchParams.get` (so `isSome` coincides with `searchParams.has`)
and `headers` is `request.headers.get`. -/
structure Request where
  query : String → Option String
  headers : String → Option String

/-- `ruleId` extraction (`src/index.js` line 20). -/
def reqRuleId (q : String → Option String) : Option String :=
  jsOr (q "cf_rule_id") (jsOr (q "rule_id") (q "ruleid"))

/-- `blockedUrl` extraction (`src/index.js` line 21). -/
def reqBlockedUrl (q : String → Option String) : Option String :=
  jsOr (q "cf_site_uri") (jsOr (q "blocked_url") (q "url"))

/-- `category` extraction (`src/index.js` line 22). -/
def reqCategory (q : String → Option String) : Option String :=
  jsOr (q "cf_request_category_names") (q "category")

/-- `hasGatewayContext` (`src/index.js` lines 27-29): a truthy extracted
value, or presence (`has`) of one of the four `cf_`-prefixed
parameters. -/
def reqGatewayContext (q : String → Option String) : Bool :=
  jsTruthy (reqRuleId q) || jsTruthy (reqBlockedUrl q) || jsTruthy (reqCategory q) ||
  jsTruthy (q "cf_user_email") ||
  (q "cf_rule_id").isSome || (q "cf_site_uri").isSome ||
  (q "cf_request_category_names").isSome || (q "cf_user_email").isSome

/-- `acceptHeader && acceptHeader.includes('application/json')`
(`src/index.js` lines 43-44). -/
def isJsonRequest (req : Request) : Bool :=
  match req.headers "Accept" with
  | some a => strIncludes a "application/json"
  | none => false

/-- `handleRequest` (`src/index.js` lines 17-55): deny with a fixed 403
when no Gateway context is present, otherwise dispatch on the `Accept`
header.  The model's `Request` is already URL-parsed, so the
`new URL(request.url)` throw path does not arise here; the only other
throwing operation, `decodeURIComponent`, is accounted for in
`handleHtmlRequest`. -/
def handleRequest (req : Request) (env : Env) (oracle : Nat → FetchOutcome)
    (time : TimeOracle) (dec : String → Option String) (enc : String → String)
    (uuid : String) : HandlerResult :=
  let q := req.query
  if reqGatewayContext q = false then
    ⟨403, .text "Access Denied", none, none, 0, 0, 0, [], 0, []⟩
  else if isJsonRequest req then
    handleJsonRequest (reqRuleId q) (reqBlockedUrl q) (reqCategory q) (q "cf_user_email")
      env (req.headers "Origin") oracle time
  else
    handleHtmlRequest (reqRuleId q) (reqBlockedUrl q) (reqCategory q) (q "timestamp")
      (q "cf_user_email") env oracle time dec enc uuid

/-- The status code carried by a fetch outcome (0 for a transport
failure, which has none). -/
def outcomeStatus : FetchOutcome → Nat
  | .fail _ => 0
  | .resp st _ => st

/-- A fetch outcome the retry loop treats as retryable: a response with
status 429 or at least 500. -/
def retryableOutcome : FetchOutcome → Bool
  | .fail _ => false
  | .resp st _ => decide (st = 429 ∨ 500 ≤ st)

/-! ### Concrete fixtures for witnesses and counterexamples -/

/-- A cache holding exactly one entry, `rule:r1` mapped to `Cached Rule`. -/
def wCache : CacheModel :=
  ⟨fun k => if k = "rule:r1" then .val "Cached Rule" else .missing⟩

/-- Environment with credentials and the one-entry cache. -/
def wEnvHit : Env := ⟨some wCache, some "tok", some "acct", none, none, none⟩

/-- Environment with credentials and no KV binding (every lookup misses). -/
def wEnvMiss : Env := ⟨none, some "tok", some "acct", none, none, none⟩

/-- Environment with the API token absent. -/
def wEnvNoCreds : Env := ⟨none, none, some "acct", none, none, none⟩

/-- Environment whose CORS allow-list value has a trailing comma, so the
parsed list is `["https://allowed.example", ""]`. -/
def wEnvCors : Env := ⟨none, none, none, some "https://allowed.example,", none, none⟩

/-- A fixed time oracle. -/
def wTime : TimeOracle := ⟨"2024-01-01T00:00:00.000Z", "1/1/2024, 1:00:00 AM", fun _ => "1/1/2024, 1:00:00 AM"⟩

/-- API client behaviour: every attempt gets HTTP 500. -/
def wOracle500 : Nat → FetchOutcome := fun _ => .resp 500 (.ok none)

/-- API client behaviour: every attempt gets HTTP 404. -/
def wOracle404 : Nat → FetchOutcome := fun _ => .resp 404 (.ok none)

/-- API client behaviour: every attempt succeeds with a payload name. -/
def wOracleOk : Nat → FetchOutcome := fun _ => .resp 200 (.ok (some "API Rule"))

/-- A `decodeURIComponent` oracle that succeeds verbatim. -/
def wDec : String → Option String := fun s => some s

/-- An `encodeURIComponent` oracle (identity on the fixed ASCII subject). -/
def wEnc : String → String := fun s => s

/-- The spec's canonical dangerous input. -/
def xssNeedle : String := "<script>alert(1)</script>"

/-- JSON request carrying `rule_id=r1`, `Accept: application/json` and an
`Origin` header that is present but empty. -/
def cxReq8 : Request :=
  ⟨fun k => if k = "rule_id" then some "r1" else none,
   fun k => if k = "Accept" then some "application/json"
     else if k = "Origin" then some "" else none⟩

/-! ### Helper lemmas -/

/-- `String.append` acts as list append on the character data. -/
theorem data_append (a b : String) : (a ++ b).data = a.data ++ b.data := rfl

/-- Unfolding JavaScript truthiness. -/
theorem jsTruthy_iff {o : Option String} : jsTruthy o = true ↔ ∃ s, o = some s ∧ s ≠ "" := by
  cases o <;> simp [jsTruthy]

/-- A string starting with the `Rule ` prefix is non-empty. -/
theorem ruleLabel_ne_empty (s : String) : "Rule " ++ s ≠ "" := by
  intro h
  have hd := congrArg String.data h
  rw [data_append, show "Rule ".data = ['R', 'u', 'l', 'e', ' '] from rfl] at hd
  simp at hd

/-- `hasSubList` decides list-infix containment. -/
theorem hasSubList_iff_infix {sub l : List Char} :
    hasSubList sub l = true ↔ sub <:+: l := by
  induction l with
  | nil => simp [hasSubList, List.isEmpty_iff]
  | cons c cs ih =>
    simp [hasSubList, List.infix_cons_iff, ih, List.isPrefixOf_iff_prefix]

/-- An occurrence of a pattern whose head the predicate rejects survives
`dropWhile`. -/
theorem infix_dropWhile_of_head {p : Char → Bool} {c : Char} {sub l : List Char}
    (hc : p c = false) (h : (c :: sub) <:+: l) : (c :: sub) <:+: l.dropWhile p := by
  induction l with
  | nil => simp at h
  | cons d ds ih =>
    rw [List.dropWhile_cons]
    by_cases hd : p d
    · simp only [hd, if_true]
      rcases List.infix_cons_iff.1 h with hpre | hin
      · rcases List.prefix_cons_iff.1 hpre with h0 | ⟨t, ht, _⟩
        · exact absurd h0 (List.cons_ne_nil c sub)
        · cases ht
          rw [hd] at hc
          exact absurd hc (by simp)
      · exact ih hin
    · simp only [hd, if_false]
      exact h

/-- An occurrence of a pattern with non-whitespace first and last
characters survives `jsTrim`. -/
theorem infix_jsTrim {c d : Char} {mid : List Char} {s : String}
    (hc : c.isWhitespace = false) (hd : d.isWhitespace = false)
    (h : (c :: (mid ++ [d])) <:+: s.data) :
    (c :: (mid ++ [d])) <:+: (jsTrim s).data := by
  have h1 : (c :: (mid ++ [d])) <:+: s.data.dropWhile Char.isWhitespace :=
    infix_dropWhile_of_head hc h
  have h2 := List.reverse_infix.2 h1
  have hrev : (c :: (mid ++ [d])).reverse = d :: (mid.reverse ++ [c]) := by simp
  rw [hrev] at h2
  have h3 : (d :: (mid.reverse ++ [c])) <:+:
      ((s.data.dropWhile Char.isWhitespace).reverse.dropWhile Char.isWhitespace) :=
    infix_dropWhile_of_head hd h2
  have h4 := List.reverse_infix.2 h3
  rw [show (d :: (mid.reverse ++ [c])).reverse = c :: (mid ++ [d]) by simp] at h4
  exact h4

/-- String-level infix containment (`sub` occurs inside `s`). -/
def strInfix (sub s : String) : Prop :=
  sub.data <:+: s.data

/-- Step over the left part of a string append while locating an
occurrence. -/
theorem strInfix_skip (m : String) {sub l : String} (h : strInfix sub l) :
    strInfix sub (m ++ l) := by
  rw [strInfix, data_append]
  exact h.trans (List.suffix_append m.data l.data).isInfix

/-- An occurrence starting exactly here. -/
theorem strInfix_here (sub r : String) : strInfix sub (sub ++ r) := by
  rw [strInfix, data_append]
  exact (List.prefix_append sub.data r.data).isInfix

/-- Bridge: an occurrence inside `s` whose first and last characters are
non-whitespace is found by `strIncludes` after `jsTrim`. -/
theorem strIncludes_jsTrim {c d : Char} {mid : List Char} {sub s : String}
    (hsub : sub.data = c :: (mid ++ [d]))
    (hc : c.isWhitespace = false) (hd : d.isWhitespace = false)
    (h : strInfix sub s) :
    strIncludes (jsTrim s) sub = true := by
  rw [strIncludes, hasSubList_iff_infix]
  show sub.data <:+: (jsTrim s).data
  rw [hsub]
  exact infix_jsTrim hc hd (hsub ▸ h)

/-- Peeling the first element off the exponential wait schedule. -/
theorem range_pow_shift (m k : Nat) :
    (List.range (m + 1)).map (fun i => 2 ^ (k + i) * 1000) =
      2 ^ k * 1000 :: (List.range m).map (fun i => 2 ^ (k + 1 + i) * 1000) := by
  rw [List.range_succ_eq_map, List.map_cons, List.map_map]
  refine congrArg₂ List.cons (by simp) ?_
  refine List.map_congr_left (fun i _ => ?_)
  simp only [Function.comp_apply]
  have hik : k + i.succ = k + 1 + i := by omega
  rw [hik]

set_option maxRecDepth 4096 in
/-- Attempt count and wait schedule of the retry loop, for any oracle:
starting at `attempt` with matching fuel, the loop performs between 1
and `fuel` fetches, and the wait before its (i+2)-th fetch is
`2^(attempt+i) * 1000` milliseconds. -/
theorem fetchLoop_spec (oracle : Nat → FetchOutcome) (url : String) (maxRetries : Nat) :
    ∀ fuel attempt, attempt ≤ maxRetries → attempt + fuel = maxRetries + 1 →
      1 ≤ (fetchLoop oracle url maxRetries attempt fuel).attempts ∧
      (fetchLoop oracle url maxRetries attempt fuel).attempts ≤ fuel ∧
      (fetchLoop oracle url maxRetries attempt fuel).delays =
        (List.range ((fetchLoop oracle url maxRetries attempt fuel).attempts - 1)).map
          (fun i => 2 ^ (attempt + i) * 1000) := by
  intro fuel
  induction fuel with
  | zero => intro attempt h1 h2; omega
  | succ fuel ih =>
    intro attempt h1 h2
    cases htb : tryBlock url maxRetries (oracle attempt) with
    | ok v =>
      simp only [fetchLoop, htb]
      exact ⟨le_refl 1, by omega, by simp⟩
    | error e =>
      by_cases ha : attempt = maxRetries
      · simp only [fetchLoop, htb, if_pos ha]
        exact ⟨le_refl 1, by omega, by simp⟩
      · obtain ⟨hr1, hr2, hr3⟩ := ih (attempt + 1) (by omega) (by omega)
        simp only [fetchLoop, htb, if_neg ha]
        refine ⟨by omega, by omega, ?_⟩
        rw [hr3]
        obtain ⟨n, hn⟩ :
            ∃ n, (fetchLoop oracle url maxRetries (attempt + 1) fuel).attempts = n + 1 :=
          ⟨(fetchLoop oracle url maxRetries (attempt + 1) fuel).attempts - 1, by omega⟩
        rw [hn, Nat.add_sub_cancel, Nat.add_sub_cancel, range_pow_shift]

/-- A retryable outcome makes the try block raise the exhausted-retries
error carrying that response's status. -/
theorem tryBlock_retryable {url : String} {maxRetries : Nat} {o : FetchOutcome}
    (h : retryableOutcome o = true) :
    tryBlock url maxRetries o = .error (.httpExhausted (maxRetries + 1) (outcomeStatus o)) := by
  cases o with
  | fail m => simp [retryableOutcome] at h
  | resp st b =>
    simp only [retryableOutcome, decide_eq_true_eq] at h
    simp [tryBlock, outcomeStatus, h]

/-- A value returned by the try block is never the empty string. -/
theorem tryBlock_ok_ne_empty {url : String} {maxRetries : Nat} {o : FetchOutcome} {s : String}
    (h : tryBlock url maxRetries o = .ok s) : s ≠ "" := by
  cases o with
  | fail m => simp [tryBlock] at h
  | resp st b =>
    by_cases h1 : st = 429 ∨ 500 ≤ st
    · simp [tryBlock, h1] at h
    · by_cases h2 : 200 ≤ st ∧ st < 300
      · cases b with
        | error m => simp [tryBlock, h1, h2.1, h2.2] at h
        | ok nm =>
          cases nm with
          | none =>
            simp [tryBlock, h1, h2.1, h2.2] at h
            exact h ▸ ruleLabel_ne_empty _
          | some n =>
            by_cases hn : n = ""
            · simp [tryBlock, h1, h2.1, h2.2, hn] at h
              exact h ▸ ruleLabel_ne_empty _
            · simp [tryBlock, h1, h2.1, h2.2, hn] at h
              exact h ▸ hn
      · simp [tryBlock, h1, h2] at h

/-- When every remaining attempt meets a retryable outcome, the loop
uses all its fuel and raises the exhausted-retries error describing the
final attempt's status. -/
theorem fetchLoop_all_retryable (oracle : Nat → FetchOutcome) (url : String) (maxRetries : Nat) :
    ∀ fuel attempt, attempt ≤ maxRetries → attempt + fuel = maxRetries + 1 →
      (∀ i, attempt ≤ i → i ≤ maxRetries → retryableOutcome (oracle i) = true) →
      (fetchLoop oracle url maxRetries attempt fuel).res =
        .error (.httpExhausted (maxRetries + 1) (outcomeStatus (oracle maxRetries))) ∧
      (fetchLoop oracle url maxRetries attempt fuel).attempts = fuel := by
  intro fuel
  induction fuel with
  | zero => intro attempt h1 h2 _; omega
  | succ fuel ih =>
    intro attempt h1 h2 hall
    have htb := @tryBlock_retryable url maxRetries (oracle attempt)
      (hall attempt (Nat.le_refl _) h1)
    by_cases ha : attempt = maxRetries
    · subst ha
      have hf0 : fuel = 0 := by omega
      subst hf0
      simp [fetchLoop, htb]
    · obtain ⟨ihres, ihatt⟩ := ih (attempt + 1) (by omega) (by omega)
        (fun i hi1 hi2 => hall i (by omega) hi2)
      simp only [fetchLoop, htb, if_neg ha]
      exact ⟨ihres, by rw [ihatt]⟩

/-- Every name the retry loop returns successfully is non-empty. -/
theorem fetchLoop_ok_ne_empty (oracle : Nat → FetchOutcome) (url : String) (maxRetries : Nat) :
    ∀ fuel attempt s, (fetchLoop oracle url maxRetries attempt fuel).res = .ok s → s ≠ "" := by
  intro fuel
  induction fuel with
  | zero => intro attempt s h; simp [fetchLoop] at h
  | succ fuel ih =>
    intro attempt s h
    cases htb : tryBlock url maxRetries (oracle attempt) with
    | ok v =>
      simp only [fetchLoop, htb] at h
      exact (Except.ok.inj h) ▸ tryBlock_ok_ne_empty htb
    | error e =>
      by_cases ha : attempt = maxRetries
      · simp only [fetchLoop, htb, if_pos ha] at h
        simp at h
      · simp only [fetchLoop, htb, if_neg ha] at h
        exact ih (attempt + 1) s h

/-! ### Claim theorems -/

/-- C1: for every rule identifier and every environment (any cache
contents including thrown reads, any credential presence, any API-client
behaviour including thrown errors), `getRuleName` returns a non-empty
display name and never raises (its embedding is a total function into
`RuleNameResult`: every error of a callee is consumed inside it); and
whenever the call reaches the API client and the client fails - its
result is an error, including the exhausted-retries one - the returned
name is the synthesized fallback label `Rule ` + identifier. -/
theorem c1_getRuleName_total_and_fallback (ruleId : Option String) (env : Env)
    (oracle : Nat → FetchOutcome) :
    (getRuleName ruleId env oracle).name ≠ "" ∧
    (∀ rid e, ruleId = some rid → rid ≠ "" →
      jsTruthy (getCachedRuleName rid env) = false →
      (fetchWithRetry oracle (apiUrl (env.CLOUDFLARE_ACCOUNT_ID.getD "") rid) 3).res =
        .error e →
      (getRuleName ruleId env oracle).name = "Rule " ++ rid) := by
  have hTF : ¬((true : Bool) = false) := by decide
  have hFT : ¬((false : Bool) = true) := by decide
  constructor
  · cases ht : jsTruthy ruleId with
    | false => simp [getRuleName, ht]
    | true =>
      simp only [getRuleName, ht, if_neg hTF]
      cases hc : jsTruthy (getCachedRuleName (ruleId.getD "") env) with
      | true =>
        obtain ⟨s, hs, hsne⟩ := jsTruthy_iff.1 hc
        simp [hc, hs, hsne]
      | false =>
        simp only [hc, if_neg hFT]
        by_cases hcred : jsTruthy env.CLOUDFLARE_API_TOKEN = false ∨
            jsTruthy env.CLOUDFLARE_ACCOUNT_ID = false
        · simp only [if_pos hcred]
          exact ruleLabel_ne_empty _
        · simp only [if_neg hcred]
          cases hfr : (fetchWithRetry oracle
              (apiUrl (env.CLOUDFLARE_ACCOUNT_ID.getD "") (ruleId.getD "")) 3).res with
          | ok v =>
            simp only [hfr]
            exact fetchLoop_ok_ne_empty oracle _ 3 4 0 v hfr
          | error e =>
            simp only [hfr]
            exact ruleLabel_ne_empty _
  · intro rid e hrid hrne hcache hfr
    subst hrid
    have ht : jsTruthy (some rid) = true := by simp [jsTruthy, hrne]
    simp only [getRuleName, ht, if_neg hTF, Option.getD_some]
    simp only [hcache, if_neg hFT]
    by_cases hcred : jsTruthy env.CLOUDFLARE_API_TOKEN = false ∨
        jsTruthy env.CLOUDFLARE_ACCOUNT_ID = false
    · rw [if_pos hcred]
    · rw [if_neg hcred]
      simp only [hfr]

/-- C1 witness: with credentials, an empty cache and an API client that
answers HTTP 500 on every attempt, `getRuleName` returns `Rule r1`. -/
theorem c1_witness : (getRuleName (some "r1") wEnvMiss wOracle500).name = "Rule " ++ "r1" :=
  (c1_getRuleName_total_and_fallback (some "r1") wEnvMiss wOracle500).2 "r1"
    (.httpExhausted 4 500) rfl (by decide) (by decide) (by decide)

/-- C2 (claim refuted by the code): a response with status 404 - a
non-success status other than 429 and below 500 - is retried like a
retryable one: with the default budget of 3 retries the loop performs 4
fetch attempts with backoff waits of 1s, 2s and 4s between them, and
only then raises, because the `throw` for a non-ok status sits inside
the `try` block and is caught by the loop's own `catch`.  The claim says
exactly one attempt and no backoff wait. -/
theorem c2_fetchWithRetry_404_retries :
    fetchWithRetry wOracle404 (apiUrl "acct" "r1") 3 =
      ⟨.error (.httpFail 404), 4, [1000, 2000, 4000]⟩ := by decide

/-- C4: a cache hit (a non-empty cached value) is returned directly:
no fetch attempt, no backoff wait, no cache write. -/
theorem c4_cache_hit (rid s : String) (env : Env) (oracle : Nat → FetchOutcome)
    (hrne : rid ≠ "") (hc : getCachedRuleName rid env = some s) (hs : s ≠ "") :
    getRuleName (some rid) env oracle = ⟨s, 0, [], cacheGetCount env, []⟩ := by
  have hTF : ¬((true : Bool) = false) := by decide
  have ht : jsTruthy (some rid) = true := by simp [jsTruthy, hrne]
  have hct : jsTruthy (getCachedRuleName rid env) = true := by simp [hc, jsTruthy, hs]
  have hst : jsTruthy (some s) = true := by simp [jsTruthy, hs]
  simp only [getRuleName, ht, if_neg hTF, Option.getD_some, hc]
  rw [if_pos hst]

/-- C4 witness: the cached entry `Cached Rule` is returned with one KV
read, no fetch and no write, even though the API client would fail. -/
theorem c4_witness :
    getRuleName (some "r1") wEnvHit wOracle500 = ⟨"Cached Rule", 0, [], 1, []⟩ :=
  c4_cache_hit "r1" "Cached Rule" wEnvHit wOracle500 (by decide) (by decide) (by decide)

/-- C5: with the default budget of 3 retries, `fetchWithRetry` makes at
most 4 fetch attempts; its waits follow the exponential schedule
`2^attempt` seconds (1000 ms, 2000 ms, 4000 ms, ... in order, one wait
before each attempt after the first); and when every attempt meets a
retryable outcome (status 429 or at least 500) the budget is exhausted -
all 4 attempts are made - and an error describing the final attempt's
status is raised. -/
theorem c5_retry_policy (oracle : Nat → FetchOutcome) (url : String) :
    (fetchWithRetry oracle url 3).attempts ≤ 4 ∧
    (fetchWithRetry oracle url 3).delays =
      (List.range ((fetchWithRetry oracle url 3).attempts - 1)).map (fun i => 2 ^ i * 1000) ∧
    ((∀ i, i ≤ 3 → retryableOutcome (oracle i) = true) →
      (fetchWithRetry oracle url 3).attempts = 4 ∧
      (fetchWithRetry oracle url 3).res =
        .error (.httpExhausted 4 (outcomeStatus (oracle 3)))) := by
  obtain ⟨h1, h2, h3⟩ := fetchLoop_spec oracle url 3 4 0 (by omega) (by omega)
  refine ⟨h2, ?_, ?_⟩
  · simpa [fetchWithRetry] using h3
  · intro hall
    obtain ⟨hres, hatt⟩ := fetchLoop_all_retryable oracle url 3 4 0 (by omega) (by omega)
      (fun i _ hi => hall i hi)
    exact ⟨hatt, hres⟩

/-- C5 witness: four attempts against constant HTTP 500, waits of 1s,
2s and 4s, and the exhausted-retries error describing status 500. -/
theorem c5_witness :
    (fetchWithRetry wOracle500 "u" 3).attempts = 4 ∧
    (fetchWithRetry wOracle500 "u" 3).delays = [1000, 2000, 4000] ∧
    (fetchWithRetry wOracle500 "u" 3).res = .error (.httpExhausted 4 500) := by
  obtain ⟨h4, hres⟩ := (c5_retry_policy wOracle500 "u").2.2 (fun i _ => rfl)
  exact ⟨h4, by decide, hres⟩

set_option maxRecDepth 16384 in
/-- C3 (claim refuted by the code): the `category` value is interpolated
into the details section of the HTML document without `escapeHtml`
(`src/index.js` line 608, `${category}`), unlike every other
user-supplied interpolation, so the raw string
`<script>alert(1)</script>` supplied as the category appears verbatim in
the page produced by `generateBlockingPage`. -/
theorem c3_category_unescaped :
    ∃ p, generateBlockingPage "Test Rule" (some "r1") none (some xssNeedle) none
        wEnvMiss "n" wTime (fun _ => none) wEnc = some p ∧
      strIncludes p xssNeedle = true := by
  refine ⟨_, rfl, ?_⟩
  have hneedle : xssNeedle.data = '<' :: ("script>alert(1)</script".data ++ ['>']) := by decide
  simp only [blockingPageHtml]
  refine strIncludes_jsTrim hneedle (by decide) (by decide) ?_
  have hcat : (if jsTruthy (some xssNeedle) = true then
      "<div><strong>Category:</strong> " ++ (some xssNeedle).getD "" ++ "</div>"
    else "") = "<div><strong>Category:</strong> " ++ xssNeedle ++ "</div>" := rfl
  rw [hcat]
  simp only [String.append_assoc]
  repeat first | exact strInfix_here _ _ | apply strInfix_skip

/-- Shared helper: a request with no Gateway context gets the fixed 403
denial and nothing else runs. -/
theorem handleRequest_denied (req : Request) (env : Env) (oracle : Nat → FetchOutcome)
    (time : TimeOracle) (dec : String → Option String) (enc : String → String) (uuid : String)
    (h : reqGatewayContext req.query = false) :
    handleRequest req env oracle time dec enc uuid =
      ⟨403, .text "Access Denied", none, none, 0, 0, 0, [], 0, []⟩ := by
  simp [handleRequest, h]

/-- C6: for a non-empty rule identifier with a cache miss, when the API
token or the account identifier is absent, `getRuleName` returns the
synthesized label `Rule ` + identifier with no fetch attempt and no
cache write; and the enclosing request handler (HTML or JSON, for the
request carrying that identifier) still responds with status 200. -/
theorem c6_missing_credentials (rid : String) (env : Env) (oracle : Nat → FetchOutcome)
    (hrne : rid ≠ "")
    (hcache : jsTruthy (getCachedRuleName rid env) = false)
    (hcred : jsTruthy env.CLOUDFLARE_API_TOKEN = false ∨
      jsTruthy env.CLOUDFLARE_ACCOUNT_ID = false) :
    getRuleName (some rid) env oracle = ⟨"Rule " ++ rid, 0, [], cacheGetCount env, []⟩ ∧
    (∀ accept origin time dec enc uuid,
      (handleRequest
          ⟨fun k => if k = "rule_id" then some rid else none,
           fun k => if k = "Accept" then accept else if k = "Origin" then origin else none⟩
          env oracle time dec enc uuid).status = 200) := by
  have hTF : ¬((true : Bool) = false) := by decide
  have hFT : ¬((false : Bool) = true) := by decide
  have ht : jsTruthy (some rid) = true := by simp [jsTruthy, hrne]
  constructor
  · simp only [getRuleName, ht, if_neg hTF, Option.getD_some]
    simp only [hcache, if_neg hFT]
    rw [if_pos hcred]
  · intro accept origin time dec enc uuid
    have hctx : reqGatewayContext (fun k => if k = "rule_id" then some rid else none) = true := by
      simp [reqGatewayContext, reqRuleId, jsOr, jsTruthy, hrne]
    simp only [handleRequest, hctx, if_neg hTF]
    cases hj : isJsonRequest
        ⟨fun k => if k = "rule_id" then some rid else none,
         fun k => if k = "Accept" then accept else if k = "Origin" then origin else none⟩ with
    | true => simp [hj, handleJsonRequest]
    | false =>
      simp only [hj, if_neg hFT]
      simp [handleHtmlRequest, generateBlockingPage, reqBlockedUrl, reqCategory,
        jsOr, jsTruthy]

/-- C6 witness: identifier `r1`, no KV binding, no API token: the label
is `Rule r1` with zero fetches, and the HTML handler answers 200. -/
theorem c6_witness :
    getRuleName (some "r1") wEnvNoCreds wOracle500 = ⟨"Rule " ++ "r1", 0, [], 0, []⟩ ∧
    (handleRequest
        ⟨fun k => if k = "rule_id" then some "r1" else none,
         fun k => if k = "Accept" then none else if k = "Origin" then none else none⟩
        wEnvNoCreds wOracle500 wTime wDec wEnc "u").status = 200 := by
  obtain ⟨h1, h2⟩ := c6_missing_credentials "r1" wEnvNoCreds wOracle500 (by decide)
    (by decide) (Or.inl (by decide))
  exact ⟨h1, h2 none none wTime wDec wEnc "u"⟩

/-- C7: a request with none of the recognized gateway-context query
parameters is answered with status 403 and body exactly `Access Denied`;
neither the resolver nor a response builder is invoked (all
instrumentation fields are zero / empty). -/
theorem c7_no_gateway_context (req : Request) (env : Env) (oracle : Nat → FetchOutcome)
    (time : TimeOracle) (dec : String → Option String) (enc : String → String) (uuid : String)
    (h : reqGatewayContext req.query = false) :
    handleRequest req env oracle time dec enc uuid =
      ⟨403, .text "Access Denied", none, none, 0, 0, 0, [], 0, []⟩ :=
  handleRequest_denied req env oracle time dec enc uuid h

/-- C7 witness: the empty request is denied. -/
theorem c7_witness :
    handleRequest ⟨fun _ => none, fun _ => none⟩ wEnvMiss wOracle500 wTime wDec wEnc "u" =
      ⟨403, .text "Access Denied", none, none, 0, 0, 0, [], 0, []⟩ :=
  c7_no_gateway_context _ _ _ _ _ _ _ (by decide)

/-- C10: the `timestamp` parameter never counts as Gateway context, and
an empty-valued non-`cf_`-prefixed parameter (`?rule_id=`) does not
either, because presence (`has`) checks are made only for the
`cf_`-prefixed names: both requests receive the fixed 403 denial. -/
theorem c10_only_cf_presence_counts (v : String) (hdrs : String → Option String) (env : Env)
    (oracle : Nat → FetchOutcome) (time : TimeOracle) (dec : String → Option String)
    (enc : String → String) (uuid : String) :
    handleRequest ⟨fun k => if k = "timestamp" then some v else none, hdrs⟩
        env oracle time dec enc uuid =
      ⟨403, .text "Access Denied", none, none, 0, 0, 0, [], 0, []⟩ ∧
    handleRequest ⟨fun k => if k = "rule_id" then some "" else none, hdrs⟩
        env oracle time dec enc uuid =
      ⟨403, .text "Access Denied", none, none, 0, 0, 0, [], 0, []⟩ := by
  constructor
  · refine handleRequest_denied _ _ _ _ _ _ _ ?_
    simp [reqGatewayContext, reqRuleId, reqBlockedUrl, reqCategory, jsOr, jsTruthy]
  · refine handleRequest_denied _ _ _ _ _ _ _ ?_
    simp [reqGatewayContext, reqRuleId, reqBlockedUrl, reqCategory, jsOr, jsTruthy]

/-- C8 counterexample: with `ALLOWED_ORIGINS` ending in a comma the
parsed allow-list is `["https://allowed.example", ""]`, which is
non-empty and contains the empty string; a JSON request whose `Origin`
header is present with the empty value then receives the literal header
value `null` rather than an echo of its origin - refuting the claim
that the header equals the request's origin whenever the allow-list is
non-empty and contains that origin (JavaScript's `origin &&` guard also
rejects a present-but-empty origin). -/
theorem c8_counterexample :
    (0 < (allowedOriginsList wEnvCors).length ∧ "" ∈ allowedOriginsList wEnvCors ∧
      cxReq8.headers "Origin" = some "") ∧
    (handleRequest cxReq8 wEnvCors wOracle500 wTime wDec wEnc "u").acao = some "null" ∧
    ("null" : String) ≠ "" := by
  refine ⟨by decide, ?_, by decide⟩
  decide

/-- C8 (amended): the `Access-Control-Allow-Origin` header of a JSON
response equals the request's `Origin` value exactly when the configured
allow-list is non-empty, the origin is present with a non-empty value,
and the list contains it; in every other case (origin absent or empty,
allow-list unconfigured/empty, or origin not in the list) the header is
the literal string `null`. -/
theorem c8_cors_allow_list (ruleId blockedUrl category userEmail origin : Option String)
    (env : Env) (oracle : Nat → FetchOutcome) (time : TimeOracle) :
    (∀ o, origin = some o → o ≠ "" →
      ((0 < (allowedOriginsList env).length ∧ o ∈ allowedOriginsList env) →
        (handleJsonRequest ruleId blockedUrl category userEmail env origin oracle time).acao =
          some o) ∧
      (¬(0 < (allowedOriginsList env).length ∧ o ∈ allowedOriginsList env) →
        (handleJsonRequest ruleId blockedUrl category userEmail env origin oracle time).acao =
          some "null")) ∧
    ((origin = none ∨ origin = some "") →
      (handleJsonRequest ruleId blockedUrl category userEmail env origin oracle time).acao =
        some "null") := by
  have hacao : (handleJsonRequest ruleId blockedUrl category userEmail env origin oracle
      time).acao = some (corsAllowOrigin env origin) := rfl
  constructor
  · intro o ho hone
    subst ho
    constructor
    · intro hcond
      have hcnd : 0 < (allowedOriginsList env).length ∧ jsTruthy (some o) = true ∧
          (some o).getD "" ∈ allowedOriginsList env :=
        ⟨hcond.1, by simp [jsTruthy, hone], by simpa using hcond.2⟩
      rw [hacao, corsAllowOrigin]
      rw [if_pos hcnd]
      simp
    · intro hncond
      have hncnd : ¬(0 < (allowedOriginsList env).length ∧ jsTruthy (some o) = true ∧
          (some o).getD "" ∈ allowedOriginsList env) :=
        fun hx => hncond ⟨hx.1, by simpa using hx.2.2⟩
      rw [hacao, corsAllowOrigin]
      rw [if_neg hncnd]
  · intro hor
    rw [hacao, corsAllowOrigin]
    rcases hor with h0 | h0 <;> subst h0
    · rw [if_neg (fun hx => by simpa [jsTruthy] using hx.2.1)]
    · rw [if_neg (fun hx => by simpa [jsTruthy] using hx.2.1)]

/-- C8 witness: an origin present in the configured allow-list is
echoed back. -/
theorem c8_witness :
    (handleJsonRequest (some "r1") none none none wEnvCors (some "https://allowed.example")
      wOracle500 wTime).acao = some "https://allowed.example" :=
  ((c8_cors_allow_list (some "r1") none none none (some "https://allowed.example") wEnvCors
      wOracle500 wTime).1 "https://allowed.example" rfl (by decide)).1 (by decide)

/-- C9: with the rule identifier absent (null or empty), the JSON
builder uses the fixed label `Unknown Rule` (both in its payload and as
the resolved name) while the HTML builder uses `Security Policy`; in
neither case is the cache read or written or the network consulted. -/
theorem c9_absent_rule_id_labels
    (ruleId blockedUrl category timestamp userEmail origin : Option String)
    (env : Env) (oracle : Nat → FetchOutcome) (time : TimeOracle)
    (dec : String → Option String) (enc : String → String) (uuid : String)
    (h : jsTruthy ruleId = false) :
    (handleJsonRequest ruleId blockedUrl category userEmail env origin oracle time).body =
      .json ⟨true, ruleId, "Unknown Rule", blockedUrl, category, time.nowISO⟩ ∧
    (handleJsonRequest ruleId blockedUrl category userEmail env origin oracle
      time).resolvedRuleName = some "Unknown Rule" ∧
    (handleJsonRequest ruleId blockedUrl category userEmail env origin oracle
      time).fetchAttempts = 0 ∧
    (handleJsonRequest ruleId blockedUrl category userEmail env origin oracle
      time).cacheGets = 0 ∧
    (handleJsonRequest ruleId blockedUrl category userEmail env origin oracle
      time).cachePuts = [] ∧
    (handleHtmlRequest ruleId blockedUrl category timestamp userEmail env oracle time dec enc
      uuid).resolvedRuleName = some "Security Policy" ∧
    (handleHtmlRequest ruleId blockedUrl category timestamp userEmail env oracle time dec enc
      uuid).fetchAttempts = 0 ∧
    (handleHtmlRequest ruleId blockedUrl category timestamp userEmail env oracle time dec enc
      uuid).cacheGets = 0 ∧
    (handleHtmlRequest ruleId blockedUrl category timestamp userEmail env oracle time dec enc
      uuid).cachePuts = [] := by
  have hFT : ¬((false : Bool) = true) := by decide
  refine ⟨?_, ?_, ?_, ?_, ?_, ?_, ?_, ?_, ?_⟩ <;>
    first
      | simp [handleJsonRequest, h, if_neg hFT]
      | (simp only [handleHtmlRequest, h, if_neg hFT]
         cases hg : generateBlockingPage "Security Policy" ruleId blockedUrl category
             timestamp env (replaceAll uuid '-' "") time dec enc <;>
           simp [hg])

/-- C9 witness: both builders at an absent identifier. -/
theorem c9_witness :
    (handleJsonRequest none none none none wEnvMiss none wOracle500 wTime).resolvedRuleName =
      some "Unknown Rule" ∧
    (handleHtmlRequest none none none none none wEnvMiss wOracle500 wTime wDec wEnc
      "u").resolvedRuleName = some "Security Policy" := by
  obtain ⟨_, hj, _, _, _, hh, _, _, _⟩ := c9_absent_rule_id_labels none none none none none
    none wEnvMiss wOracle500 wTime wDec wEnc "u" (by decide)
  exact ⟨hj, hh⟩

end GatewayWorker
